import Mathlib

/-!
Verification development for the JupyterLab document registry contracts
(`src/docregistry/interfaces.ts`).  The repository source consists of pure
interface declarations (`IDocumentModel`, `IDocumentContext`,
`IWidgetFactoryOptions`, ...), so the behaviour those contracts require is
modelled here from the specification's words, as executable Lean
definitions, and the specification's claims are settled against those
models.
-/

namespace DocRegistry

/-- Modelled from the spec: the structured ("JSON") serialization form of a
document model (`toJSON`/`fromJSON` in `IDocumentModel`).  The concrete
JSON grammar is out of the core's scope; a small value grammar suffices
for the generic contract. -/
inductive Json where
  | null : Json
  | bool (b : Bool) : Json
  | num (n : Int) : Json
  | str (s : String) : Json
deriving Repr, DecidableEq

/-- Render a structured value back to text content; used when `fromJSON`
receives a non-string value. -/
def Json.render : Json → String
  | .null => "null"
  | .bool true => "true"
  | .bool false => "false"
  | .num n => ToString.toString n
  | .str s => s

/-- Signals an `IDocumentModel` emits: `contentChanged` and
`stateChanged` (the latter tagged with the name of the changed field). -/
inductive ModelSignal where
  | contentChanged : ModelSignal
  | stateChanged (field : String) : ModelSignal
deriving Repr, DecidableEq

/-- Modelled from the spec: the missing concrete implementation of the
`IDocumentModel` contract (the source only declares the interface).  Per
§3 of the spec the model holds content (opaque to the core, serializable
to a string form and a structured form; modelled as text content, the
default file format), a `dirty` flag, a `readOnly` flag, and immutable
default kernel name/language. -/
structure DocumentModel where
  content : String
  dirty : Bool
  readOnly : Bool
  defaultKernelName : String
  defaultKernelLanguage : String
  isDisposed : Bool
deriving Repr, DecidableEq

/-- `IDocumentModel.toString`: serialize the model to a string. -/
def DocumentModel.toStringForm (m : DocumentModel) : String :=
  m.content

/-- Modelled from the spec: `IDocumentModel.fromString` — deserialize the
model from a string.  Emits a `contentChanged` signal (always, even if the
new content equals the old), and clears `dirty` (the spec's §3 invariant:
dirty is cleared exactly on successful load or save, and §8: after any
successful `fromString`, `dirty == false`). -/
def DocumentModel.fromString (m : DocumentModel) (value : String) :
    DocumentModel × List ModelSignal :=
  ({ m with content := value, dirty := false }, [ModelSignal.contentChanged])

/-- `IDocumentModel.toJSON`: serialize the model to a structured value. -/
def DocumentModel.toJSON (m : DocumentModel) : Json :=
  Json.str m.content

/-- Modelled from the spec: `IDocumentModel.fromJSON` — deserialize the
model from a structured value; same notification and dirty-clearing
contract as `fromString`. -/
def DocumentModel.fromJSON (m : DocumentModel) (value : Json) :
    DocumentModel × List ModelSignal :=
  ({ m with content := value.render, dirty := false },
   [ModelSignal.contentChanged])

/-- Structural equivalence of model state, as the round-trip contract uses
it: the representable content and the immutable per-instance fields agree.
(`dirty` is transient bookkeeping — the spec's own §3 invariant forces it
to `false` on every load, so it is not part of the representable state a
serialization carries.) -/
def DocumentModel.equivState (a b : DocumentModel) : Prop :=
  a.content = b.content ∧ a.readOnly = b.readOnly ∧
  a.defaultKernelName = b.defaultKernelName ∧
  a.defaultKernelLanguage = b.defaultKernelLanguage

instance : DecidablePred (fun p : DocumentModel × DocumentModel =>
    DocumentModel.equivState p.1 p.2) := by
  intro p
  unfold DocumentModel.equivState
  infer_instance

/-- Number of `contentChanged` notifications in an emitted signal list. -/
def countContentChanged (sigs : List ModelSignal) : Nat :=
  (sigs.filter (fun s => s = ModelSignal.contentChanged)).length

/-- The registration record of `IWidgetFactoryOptions`: the extensions the
widget can view, the display/model names, and the subset of extensions for
which the factory is the default.  Extensions are literal (`".txt"`) or the
wildcard `"*"`. -/
structure WidgetFactoryRecord where
  name : String
  fileExtensions : List String
  displayName : String
  modelName : String
  defaultFor : List String
deriving Repr, DecidableEq

/-- ConfigurationError taxonomy entry (§7): invalid registration. -/
inductive ConfigurationError where
  | defaultForNotSubset : ConfigurationError
deriving Repr, DecidableEq

/-- SelectionError taxonomy entry (§7): no applicable/default factory. -/
inductive SelectionError where
  | noDefaultViewer : SelectionError
deriving Repr, DecidableEq

/-- The `IWidgetFactoryOptions` validity requirement: entries of
`defaultFor` must also be included in `fileExtensions`. -/
def WidgetFactoryRecord.valid (f : WidgetFactoryRecord) : Bool :=
  f.defaultFor.all (fun e => decide (e ∈ f.fileExtensions))

/-- Modelled from the spec: registration of a widget factory into the
registry (the source only declares `IWidgetFactoryOptions`).  A
`defaultFor` entry outside `fileExtensions` is a registration-time
`ConfigurationError`; registration under an already-registered name
replaces the prior registration (last-registration-wins, §4.3). -/
def registerWidgetFactory (reg : List WidgetFactoryRecord)
    (f : WidgetFactoryRecord) :
    Except ConfigurationError (List WidgetFactoryRecord) :=
  if f.valid then
    Except.ok ((reg.filter (fun g => g.name ≠ f.name)) ++ [f])
  else
    Except.error ConfigurationError.defaultForNotSubset

/-- The characters after the last `.` of a character list, or `none` when
the list has no `.`. -/
def afterLastDot : List Char → Option (List Char)
  | [] => none
  | c :: rest =>
    match afterLastDot rest with
    | some e => some e
    | none => if c = '.' then some rest else none

/-- Modelled from the spec (§4.3): derive a path's extension — the portion
after the last `.`, case-insensitive (lower-cased), carried with its
leading dot so it matches registered literal extensions such as `".txt"`;
empty when the path has no `.`. -/
def fileExtensionOf (path : String) : String :=
  match afterLastDot path.toList with
  | none => ""
  | some e => String.mk ('.' :: e.map Char.toLower)

/-- Modelled from the spec (§4.3): default-factory resolution for an
extension — (1) the first registered factory whose `defaultFor` lists the
exact extension; (2) otherwise the first whose `defaultFor` lists the
wildcard `"*"`; (3) otherwise a "no default viewer" `SelectionError`. -/
def findDefaultFactory (reg : List WidgetFactoryRecord) (ext : String) :
    Except SelectionError WidgetFactoryRecord :=
  match reg.find? (fun f => decide (ext ∈ f.defaultFor)) with
  | some f => Except.ok f
  | none =>
    match reg.find? (fun f => decide ("*" ∈ f.defaultFor)) with
    | some f => Except.ok f
    | none => Except.error SelectionError.noDefaultViewer

/-- Default-factory resolution for a path: resolve its extension, then
apply `findDefaultFactory`. -/
def defaultWidgetFactory (reg : List WidgetFactoryRecord) (path : String) :
    Except SelectionError WidgetFactoryRecord :=
  findDefaultFactory reg (fileExtensionOf path)

/-- A checkpoint (`Contents.ICheckpointModel`): backend-assigned
identifier plus creation timestamp.  The backend assigns ids in creation
order, so id ordering is modelled by `Nat` ordering. -/
structure Checkpoint where
  id : Nat
  created : Nat
deriving Repr, DecidableEq

/-- The ordering `restoreCheckpoint` resolves its default by: later
creation timestamp wins, ties broken by backend-assigned id ordering. -/
def Checkpoint.laterThan (c b : Checkpoint) : Prop :=
  b.created < c.created ∨ (b.created = c.created ∧ b.id < c.id)

instance : ∀ c b : Checkpoint, Decidable (Checkpoint.laterThan c b) := by
  intro c b
  unfold Checkpoint.laterThan
  infer_instance

/-- Non-strict version of `Checkpoint.laterThan`. -/
def Checkpoint.atLeast (c b : Checkpoint) : Prop :=
  b.created < c.created ∨ (b.created = c.created ∧ b.id ≤ c.id)

/-- Pick the later of two checkpoints under the restore ordering. -/
def pickLater (b c : Checkpoint) : Checkpoint :=
  if c.laterThan b then c else b

/-- Modelled from the spec: the checkpoint `restoreCheckpoint()` defaults
to — the most recently created checkpoint reported by `listCheckpoints()`
(latest `created`, ties broken by backend-assigned id ordering). -/
def latestCheckpoint : List Checkpoint → Option Checkpoint
  | [] => none
  | c :: rest => some (rest.foldl pickLater c)

/-- The storage backend's contents metadata (`Contents.IModel`): path,
last-modified stamp, format, and a contents field that the backend may or
may not fill on a given operation. -/
structure ContentsMeta where
  path : String
  lastModified : Nat
  format : String
  contents : String
deriving Repr, DecidableEq

/-- A live kernel-session handle (`IKernel`), identified by a backend id. -/
structure KernelHandle where
  kid : Nat
deriving Repr, DecidableEq

/-- Signals an `IDocumentContext` emits. -/
inductive CtxSignal where
  | kernelChanged (k : Option KernelHandle) : CtxSignal
  | pathChanged (p : String) : CtxSignal
  | contentsModelChanged : CtxSignal
  | populatedSig : CtxSignal
  | disposedSig : CtxSignal
deriving Repr, DecidableEq

/-- External effects a context operation issues against its collaborators
(kernel teardown, model disposal, checkpoint restoration). -/
inductive Effect where
  | shutdownKernel (k : KernelHandle) : Effect
  | disposeModel : Effect
  | restoreFromCheckpoint (cid : Nat) : Effect
deriving Repr, DecidableEq

/-- Errors a context operation can fail with (§7 taxonomy, the entries the
context itself raises). -/
inductive DocError where
  | storage : DocError
  | kernel : DocError
  | disposed : DocError
deriving Repr, DecidableEq

/-- Modelled from the spec: the state owned by a document context (the
source only declares `IDocumentContext`): its exclusively owned model, the
storage path, the `contentsModel` metadata snapshot (`none` until first
successful save or load), the optional kernel session, the sibling
registrations, and the `isPopulated` / `isDisposed` flags. -/
structure ContextState where
  model : DocumentModel
  path : String
  contentsModel : Option ContentsMeta
  kernel : Option KernelHandle
  siblings : List Nat
  isPopulated : Bool
  isDisposed : Bool
deriving Repr, DecidableEq

/-- The outcome of one context operation: the successor state, the signals
emitted (in order), the effects issued to collaborators, and the
operation's asynchronous result. -/
structure OpResult (α : Type) where
  state : ContextState
  signals : List CtxSignal
  effects : List Effect
  result : Except DocError α
deriving Repr

/-- A freshly created context: unpopulated, no metadata snapshot, no
kernel, no siblings. -/
def initialContext (m : DocumentModel) (path : String) : ContextState :=
  { model := m
    path := path
    contentsModel := none
    kernel := none
    siblings := []
    isPopulated := false
    isDisposed := false }

/-- Strip the backend's contents body from a metadata snapshot: the
context's `contentsModel` always has an empty `contents` field. -/
def stripContents (meta : ContentsMeta) : ContentsMeta :=
  { meta with contents := "" }

/-- Modelled from the spec: `IDocumentContext.revert` — fetch the storage
content (the backend outcome is passed in as `disk`), feed it to the
model's `fromString`, replace the `contentsModel` snapshot (with its
contents body stripped), clear `dirty`, and transition to populated.  On a
backend failure the operation fails with a Storage error and the model and
metadata are left unchanged; on a disposed context it fails with a
disposed error. -/
def ContextState.revert (ctx : ContextState)
    (disk : Except Unit (String × ContentsMeta)) : OpResult Unit :=
  if ctx.isDisposed then
    ⟨ctx, [], [], Except.error DocError.disposed⟩
  else
    match disk with
    | Except.error _ => ⟨ctx, [], [], Except.error DocError.storage⟩
    | Except.ok (content, meta) =>
      let loaded := (ctx.model.fromString content).1
      let popSigs :=
        if ctx.isPopulated then [] else [CtxSignal.populatedSig]
      ⟨{ ctx with
          model := loaded
          contentsModel := some (stripContents meta)
          isPopulated := true },
       CtxSignal.contentsModelChanged :: popSigs, [], Except.ok ()⟩

/-- Modelled from the spec: `IDocumentContext.save` — serialize the model,
write it via storage (the backend outcome is passed in as `write`),
replace the `contentsModel` snapshot (contents body stripped), clear
`dirty`, and transition to populated.  On a backend failure the operation
fails with a Storage error and the model and metadata are left unchanged;
on a disposed context (including a save still pending at disposal time,
whose completion runs against the disposed state) it fails with a disposed
error. -/
def ContextState.save (ctx : ContextState)
    (write : Except Unit ContentsMeta) : OpResult Unit :=
  if ctx.isDisposed then
    ⟨ctx, [], [], Except.error DocError.disposed⟩
  else
    match write with
    | Except.error _ => ⟨ctx, [], [], Except.error DocError.storage⟩
    | Except.ok meta =>
      let popSigs :=
        if ctx.isPopulated then [] else [CtxSignal.populatedSig]
      ⟨{ ctx with
          model := { ctx.model with dirty := false }
          contentsModel := some (stripContents meta)
          isPopulated := true },
       CtxSignal.contentsModelChanged :: popSigs, [], Except.ok ()⟩

/-- Modelled from the spec: `IDocumentContext.changeKernel` — tear down
any existing kernel session unconditionally; with no options, leave the
context with no kernel (pure shutdown); otherwise start or connect (the
backend outcome is passed in as `start`) and on success emit a
kernel-changed signal and resolve with the new session handle.  If
establishment fails the context is left with no kernel and the operation
fails with a Kernel error. -/
def ContextState.changeKernel (ctx : ContextState)
    (options : Option String) (start : Except Unit KernelHandle) :
    OpResult (Option KernelHandle) :=
  if ctx.isDisposed then
    ⟨ctx, [], [], Except.error DocError.disposed⟩
  else
    let teardown :=
      match ctx.kernel with
      | some k => [Effect.shutdownKernel k]
      | none => []
    match options with
    | none =>
      ⟨{ ctx with kernel := none }, [], teardown, Except.ok none⟩
    | some _ =>
      match start with
      | Except.error _ =>
        ⟨{ ctx with kernel := none }, [], teardown,
         Except.error DocError.kernel⟩
      | Except.ok h =>
        ⟨{ ctx with kernel := some h },
         [CtxSignal.kernelChanged (some h)], teardown,
         Except.ok (some h)⟩

/-- Modelled from the spec: `IDocumentContext.listSessions` — a read-only
passthrough to the Session collaborator, with no local caching; it only
fails on a disposed context. -/
def ContextState.listSessions (ctx : ContextState)
    (backendSessions : List Nat) : Except DocError (List Nat) :=
  if ctx.isDisposed then Except.error DocError.disposed
  else Except.ok backendSessions

/-- Modelled from the spec: `IDocumentContext.restoreCheckpoint` — restore
the checkpoint with the given id, defaulting (when no id is given) to the
most recently created checkpoint reported by `listCheckpoints()`; resolves
with the id of the checkpoint restored. -/
def ContextState.restoreCheckpoint (ctx : ContextState)
    (checkpointID : Option Nat) (cps : List Checkpoint) : OpResult Nat :=
  if ctx.isDisposed then
    ⟨ctx, [], [], Except.error DocError.disposed⟩
  else
    let target : Option Checkpoint :=
      match checkpointID with
      | some cid => cps.find? (fun c => c.id = cid)
      | none => latestCheckpoint cps
    match target with
    | none => ⟨ctx, [], [], Except.error DocError.storage⟩
    | some c =>
      ⟨ctx, [], [Effect.restoreFromCheckpoint c.id], Except.ok c.id⟩

/-- Modelled from the spec: context disposal — idempotent; disposes the
owned model, tears down any kernel session, releases all sibling
registrations, and emits the disposed signal exactly once (a second call
is a no-op emitting nothing). -/
def ContextState.dispose (ctx : ContextState) :
    ContextState × List CtxSignal × List Effect :=
  if ctx.isDisposed then
    (ctx, [], [])
  else
    let teardown :=
      match ctx.kernel with
      | some k => [Effect.shutdownKernel k]
      | none => []
    ({ ctx with
        model := { ctx.model with isDisposed := true }
        kernel := none
        siblings := []
        isDisposed := true },
     [CtxSignal.disposedSig], teardown ++ [Effect.disposeModel])

/-- One context operation together with the backend outcome it observes:
the alphabet of the context's state machine. -/
inductive COp where
  | revert (disk : Except Unit (String × ContentsMeta)) : COp
  | save (write : Except Unit ContentsMeta) : COp
  | changeKernel (options : Option String)
      (start : Except Unit KernelHandle) : COp
  | restoreCheckpoint (cid : Option Nat) (cps : List Checkpoint) : COp
  | dispose : COp
deriving Repr

/-- Step the context state by one operation. -/
def applyOp (ctx : ContextState) : COp → ContextState
  | COp.revert disk => (ctx.revert disk).state
  | COp.save write => (ctx.save write).state
  | COp.changeKernel options start => (ctx.changeKernel options start).state
  | COp.restoreCheckpoint cid cps => (ctx.restoreCheckpoint cid cps).state
  | COp.dispose => ctx.dispose.1

/-- Run a sequence of operations from a state. -/
def runOps (ctx : ContextState) (ops : List COp) : ContextState :=
  ops.foldl applyOp ctx

/-- Whether an operation is a successful population (a load or save whose
backend outcome succeeded). -/
def COp.populating : COp → Bool
  | COp.revert (Except.ok _) => true
  | COp.save (Except.ok _) => true
  | _ => false

/-- The spec's example factory A: views all files and is the wildcard
default (`fileExtensions ["*"], defaultFor ["*"]`). -/
def widgetFactoryA : WidgetFactoryRecord :=
  { name := "A"
    fileExtensions := ["*"]
    displayName := "A"
    modelName := "text"
    defaultFor := ["*"] }

/-- The spec's example factory B: the default notebook viewer
(`fileExtensions [".ipynb"], defaultFor [".ipynb"]`). -/
def widgetFactoryB : WidgetFactoryRecord :=
  { name := "B"
    fileExtensions := [".ipynb"]
    displayName := "B"
    modelName := "notebook"
    defaultFor := [".ipynb"] }

/-- The spec's example of an invalid registration: `fileExtensions
[".txt"]` with `defaultFor [".md"]`. -/
def invalidTextFactory : WidgetFactoryRecord :=
  { name := "X"
    fileExtensions := [".txt"]
    displayName := "X"
    modelName := "text"
    defaultFor := [".md"] }

/-- The `contentsModel` invariant: whenever the snapshot is present, its
`contents` field is empty. -/
def contentsStripped (ctx : ContextState) : Prop :=
  ∀ cm : ContentsMeta, ctx.contentsModel = some cm → cm.contents = ""

/-- A concrete model used to exercise the contracts. -/
def sampleModel : DocumentModel :=
  { content := "cells"
    dirty := false
    readOnly := false
    defaultKernelName := "python3"
    defaultKernelLanguage := "python"
    isDisposed := false }

/-- A concrete freshly created context used to exercise the contracts. -/
def sampleContext : ContextState :=
  initialContext sampleModel "notebook.ipynb"

/-- The sample context with a kernel session attached. -/
def sampleContextWithKernel : ContextState :=
  { sampleContext with kernel := some { kid := 7 } }

/-- C1: for every document model, deserializing its own serialization
reproduces an equivalent model state — `fromString (toString m)` and
`fromJSON (toJSON m)` agree with `m` on all representable state (content,
read-only flag, default kernel name/language); when `m` is not dirty the
round trips reproduce `m` exactly. -/
theorem fromString_toString_round_trip (m : DocumentModel) :
    DocumentModel.equivState ((m.fromString m.toStringForm).1) m ∧
    DocumentModel.equivState ((m.fromJSON m.toJSON).1) m ∧
    (m.dirty = false →
      (m.fromString m.toStringForm).1 = m ∧ (m.fromJSON m.toJSON).1 = m) := by
  refine ⟨⟨rfl, rfl, rfl, rfl⟩, ⟨rfl, rfl, rfl, rfl⟩, fun hd => ?_⟩
  cases m with
  | mk content dirty readOnly kn kl disp =>
    simp only at hd
    subst hd
    exact ⟨rfl, rfl⟩

/-- Witness for C1 at a concrete dirty-free model. -/
theorem fromString_toString_round_trip_witness :
    (DocumentModel.fromString
        { content := "cells", dirty := false, readOnly := false,
          defaultKernelName := "python3", defaultKernelLanguage := "python",
          isDisposed := false }
        (DocumentModel.toStringForm
          { content := "cells", dirty := false, readOnly := false,
            defaultKernelName := "python3", defaultKernelLanguage := "python",
            isDisposed := false })).1 =
      { content := "cells", dirty := false, readOnly := false,
        defaultKernelName := "python3", defaultKernelLanguage := "python",
        isDisposed := false } :=
  ((fromString_toString_round_trip
    { content := "cells", dirty := false, readOnly := false,
      defaultKernelName := "python3", defaultKernelLanguage := "python",
      isDisposed := false }).2.2 rfl).1

/-- C2: every call to `fromString` or `fromJSON` emits exactly one
content-changed notification — in particular also when the new value
equals the current serialization, i.e. the content is unchanged — and
leaves the model's dirty flag false. -/
theorem fromString_fromJSON_emit_once_dirty_false
    (m : DocumentModel) (v : String) (j : Json) :
    countContentChanged (m.fromString v).2 = 1 ∧
    (m.fromString v).1.dirty = false ∧
    countContentChanged (m.fromJSON j).2 = 1 ∧
    (m.fromJSON j).1.dirty = false ∧
    countContentChanged (m.fromString m.toStringForm).2 = 1 ∧
    countContentChanged (m.fromJSON m.toJSON).2 = 1 :=
  ⟨rfl, rfl, rfl, rfl, rfl, rfl⟩

/-- A `find?` hit splits the list at the first element satisfying the
predicate: everything before it fails the predicate. -/
theorem find?_splits_at_first {α : Type} (p : α → Bool) :
    ∀ (l : List α) (a : α), l.find? p = some a →
      ∃ pre post, l = pre ++ a :: post ∧ ∀ x ∈ pre, p x = false := by
  intro l
  induction l with
  | nil => intro a h; simp [List.find?] at h
  | cons b t ih =>
    intro a h
    by_cases hb : p b
    · rw [List.find?_cons_of_pos _ hb] at h
      cases h
      exact ⟨[], t, rfl, by simp⟩
    · rw [List.find?_cons_of_neg _ hb] at h
      obtain ⟨pre, post, hsplit, hpre⟩ := ih a h
      refine ⟨b :: pre, post, by rw [hsplit]; rfl, ?_⟩
      intro x hx
      rcases List.mem_cons.mp hx with h1 | h2
      · subst h1; exact Bool.of_not_eq_true hb
      · exact hpre x h2

/-- If some element of the list satisfies the predicate, `find?` hits. -/
theorem find?_isSome_of_exists {α : Type} (p : α → Bool) (l : List α)
    (h : ∃ x ∈ l, p x = true) : ∃ a, l.find? p = some a := by
  cases hfind : l.find? p with
  | some a => exact ⟨a, rfl⟩
  | none =>
    obtain ⟨x, hx, hpx⟩ := h
    exact absurd hpx (List.find?_eq_none.mp hfind x hx)

/-- C3: default widget-factory resolution order — the first registered
factory whose `defaultFor` lists the exact extension wins; failing that,
the first whose `defaultFor` lists the wildcard `"*"`; failing that, the
resolution fails with the "no default viewer" selection error.  With the
spec's example factories A (`defaultFor ["*"]`) and B (`defaultFor
[".ipynb"]`) registered, `"notebook.ipynb"` resolves to B and
`"notes.txt"` resolves to A. -/
theorem default_factory_resolution_order
    (reg : List WidgetFactoryRecord) (ext : String) :
    ((∃ g ∈ reg, ext ∈ g.defaultFor) →
      ∃ f pre post, findDefaultFactory reg ext = Except.ok f ∧
        ext ∈ f.defaultFor ∧ reg = pre ++ f :: post ∧
        ∀ g ∈ pre, ext ∉ g.defaultFor) ∧
    ((∀ g ∈ reg, ext ∉ g.defaultFor) → (∃ g ∈ reg, "*" ∈ g.defaultFor) →
      ∃ f pre post, findDefaultFactory reg ext = Except.ok f ∧
        "*" ∈ f.defaultFor ∧ reg = pre ++ f :: post ∧
        ∀ g ∈ pre, "*" ∉ g.defaultFor) ∧
    (findDefaultFactory reg ext = Except.error SelectionError.noDefaultViewer ↔
      ∀ g ∈ reg, ext ∉ g.defaultFor ∧ "*" ∉ g.defaultFor) ∧
    defaultWidgetFactory [widgetFactoryA, widgetFactoryB] "notebook.ipynb" =
      Except.ok widgetFactoryB ∧
    defaultWidgetFactory [widgetFactoryA, widgetFactoryB] "notes.txt" =
      Except.ok widgetFactoryA := by
  refine ⟨?_, ?_, ?_, rfl, rfl⟩
  · rintro ⟨g, hg, hmem⟩
    obtain ⟨f, hf⟩ := find?_isSome_of_exists
      (fun f : WidgetFactoryRecord => decide (ext ∈ f.defaultFor)) reg
      ⟨g, hg, by simpa using hmem⟩
    obtain ⟨pre, post, hsplit, hpre⟩ := find?_splits_at_first _ reg f hf
    refine ⟨f, pre, post, ?_, ?_, hsplit, ?_⟩
    · unfold findDefaultFactory
      rw [hf]
    · simpa using List.find?_some hf
    · intro x hx
      simpa using hpre x hx
  · intro hnone hstar
    have hfe : reg.find? (fun f => decide (ext ∈ f.defaultFor)) = none :=
      List.find?_eq_none.mpr (fun g hg => by simpa using hnone g hg)
    obtain ⟨g, hg, hmem⟩ := hstar
    obtain ⟨f, hf⟩ := find?_isSome_of_exists
      (fun f : WidgetFactoryRecord => decide ("*" ∈ f.defaultFor)) reg
      ⟨g, hg, by simpa using hmem⟩
    obtain ⟨pre, post, hsplit, hpre⟩ := find?_splits_at_first _ reg f hf
    refine ⟨f, pre, post, ?_, ?_, hsplit, ?_⟩
    · unfold findDefaultFactory
      rw [hfe, hf]
    · simpa using List.find?_some hf
    · intro x hx
      simpa using hpre x hx
  · constructor
    · intro herr g hg
      unfold findDefaultFactory at herr
      cases hfe : reg.find? (fun f => decide (ext ∈ f.defaultFor)) with
      | some f => rw [hfe] at herr; exact absurd herr (by simp)
      | none =>
        rw [hfe] at herr
        cases hfw : reg.find? (fun f => decide ("*" ∈ f.defaultFor)) with
        | some f => rw [hfw] at herr; exact absurd herr (by simp)
        | none =>
          exact ⟨by simpa using List.find?_eq_none.mp hfe g hg,
                 by simpa using List.find?_eq_none.mp hfw g hg⟩
    · intro hall
      have hfe : reg.find? (fun f => decide (ext ∈ f.defaultFor)) = none :=
        List.find?_eq_none.mpr (fun g hg => by simpa using (hall g hg).1)
      have hfw : reg.find? (fun f => decide ("*" ∈ f.defaultFor)) = none :=
        List.find?_eq_none.mpr (fun g hg => by simpa using (hall g hg).2)
      unfold findDefaultFactory
      rw [hfe, hfw]

/-- Witness for C3: resolution over the example registry, discharging
each hypothesis at the extensions `".ipynb"` and `".txt"`. -/
theorem default_factory_resolution_order_witness :
    (∃ f pre post,
      findDefaultFactory [widgetFactoryA, widgetFactoryB] ".ipynb" =
        Except.ok f ∧
      ".ipynb" ∈ f.defaultFor ∧
      [widgetFactoryA, widgetFactoryB] = pre ++ f :: post ∧
      ∀ g ∈ pre, ".ipynb" ∉ g.defaultFor) ∧
    (∃ f pre post,
      findDefaultFactory [widgetFactoryA, widgetFactoryB] ".txt" =
        Except.ok f ∧
      "*" ∈ f.defaultFor ∧
      [widgetFactoryA, widgetFactoryB] = pre ++ f :: post ∧
      ∀ g ∈ pre, "*" ∉ g.defaultFor) ∧
    findDefaultFactory [] ".txt" =
      Except.error SelectionError.noDefaultViewer :=
  ⟨(default_factory_resolution_order [widgetFactoryA, widgetFactoryB]
      ".ipynb").1
    ⟨widgetFactoryB, by decide, by decide⟩,
   (default_factory_resolution_order [widgetFactoryA, widgetFactoryB]
      ".txt").2.1
    (by decide) ⟨widgetFactoryA, by decide, by decide⟩,
   (default_factory_resolution_order [] ".txt").2.2.1.mpr (by simp)⟩

/-- C4: registering a widget factory whose `defaultFor` is not a subset of
its `fileExtensions` fails immediately with a ConfigurationError (the
registry is never extended with it, so the violation cannot surface
later); every registry built from successful registrations contains only
valid factories; in particular the `fileExtensions [".txt"], defaultFor
[".md"]` example is rejected. -/
theorem register_rejects_defaultFor_not_subset
    (reg : List WidgetFactoryRecord) (f : WidgetFactoryRecord) :
    ((∃ e ∈ f.defaultFor, e ∉ f.fileExtensions) →
      registerWidgetFactory reg f =
        Except.error ConfigurationError.defaultForNotSubset) ∧
    (∀ reg', registerWidgetFactory reg f = Except.ok reg' →
      (∀ g ∈ reg, WidgetFactoryRecord.valid g = true) →
      ∀ g ∈ reg', WidgetFactoryRecord.valid g = true) ∧
    registerWidgetFactory reg invalidTextFactory =
      Except.error ConfigurationError.defaultForNotSubset := by
  refine ⟨?_, ?_, rfl⟩
  · rintro ⟨e, he, hnot⟩
    have hval : f.valid = false := by
      rcases hv : f.valid with _ | _
      · rfl
      · exact absurd (by simpa using List.all_eq_true.mp hv e he) hnot
    simp [registerWidgetFactory, hval]
  · intro reg' hok hall g hg
    have hval : f.valid = true := by
      rcases hv : f.valid with _ | _
      · simp [registerWidgetFactory, hv] at hok
      · rfl
    rw [registerWidgetFactory, if_pos hval] at hok
    cases hok
    rcases List.mem_append.mp hg with hfil | hone
    · exact hall g (List.mem_of_mem_filter hfil)
    · rw [List.mem_singleton.mp hone]
      exact hval

/-- Witness for C4: the `.txt`/`.md` example is rejected against the
empty registry, and a valid registration yields a registry of valid
factories. -/
theorem register_rejects_defaultFor_not_subset_witness :
    registerWidgetFactory [] invalidTextFactory =
      Except.error ConfigurationError.defaultForNotSubset ∧
    (∀ g ∈ [widgetFactoryB], WidgetFactoryRecord.valid g = true) :=
  ⟨(register_rejects_defaultFor_not_subset [] invalidTextFactory).1
     ⟨".md", by decide, by decide⟩,
   (register_rejects_defaultFor_not_subset [] widgetFactoryB).2.1
     [widgetFactoryB] rfl (by simp)⟩

/-- The restore order is reflexive. -/
theorem Checkpoint.atLeast_refl (c : Checkpoint) : c.atLeast c := by
  unfold Checkpoint.atLeast
  omega

/-- The restore order is transitive. -/
theorem Checkpoint.atLeast_trans {a b c : Checkpoint}
    (h1 : Checkpoint.atLeast b a) (h2 : Checkpoint.atLeast c b) :
    Checkpoint.atLeast c a := by
  unfold Checkpoint.atLeast at h1 h2 ⊢
  omega

/-- `pickLater` dominates its left argument. -/
theorem pickLater_atLeast_left (a c : Checkpoint) :
    Checkpoint.atLeast (pickLater a c) a := by
  unfold pickLater
  split
  · rename_i h
    unfold Checkpoint.laterThan at h
    unfold Checkpoint.atLeast
    omega
  · exact Checkpoint.atLeast_refl a

/-- `pickLater` dominates its right argument. -/
theorem pickLater_atLeast_right (a c : Checkpoint) :
    Checkpoint.atLeast (pickLater a c) c := by
  unfold pickLater
  split
  · exact Checkpoint.atLeast_refl c
  · rename_i h
    unfold Checkpoint.laterThan at h
    unfold Checkpoint.atLeast
    omega

/-- `foldl pickLater` returns the seed or a list element. -/
theorem foldl_pickLater_mem :
    ∀ (l : List Checkpoint) (a : Checkpoint),
      l.foldl pickLater a = a ∨ l.foldl pickLater a ∈ l := by
  intro l
  induction l with
  | nil =>
    intro a
    left
    rfl
  | cons c t ih =>
    intro a
    rw [List.foldl_cons]
    rcases ih (pickLater a c) with h | h
    · rw [h]
      unfold pickLater
      split
      · right
        exact List.mem_cons_self c t
      · left
        rfl
    · right
      exact List.mem_cons_of_mem c h

/-- `foldl pickLater` dominates the seed and every list element. -/
theorem foldl_pickLater_atLeast :
    ∀ (l : List Checkpoint) (a : Checkpoint),
      Checkpoint.atLeast (l.foldl pickLater a) a ∧
      ∀ b ∈ l, Checkpoint.atLeast (l.foldl pickLater a) b := by
  intro l
  induction l with
  | nil =>
    intro a
    exact ⟨Checkpoint.atLeast_refl a, by simp⟩
  | cons c t ih =>
    intro a
    rw [List.foldl_cons]
    obtain ⟨h1, h2⟩ := ih (pickLater a c)
    refine ⟨Checkpoint.atLeast_trans (pickLater_atLeast_left a c) h1, ?_⟩
    intro b hb
    rcases List.mem_cons.mp hb with rfl | hbt
    · exact Checkpoint.atLeast_trans (pickLater_atLeast_right a b) h1
    · exact h2 b hbt

/-- C5: on a live context with a non-empty checkpoint list,
`restoreCheckpoint` with no id restores the checkpoint with the latest
`created` timestamp among `listCheckpoints()`'s result, ties broken by
backend-assigned id ordering: the operation resolves with that
checkpoint's id and issues the restore against it. -/
theorem restoreCheckpoint_defaults_to_latest
    (ctx : ContextState) (cps : List Checkpoint)
    (hlive : ctx.isDisposed = false) (hne : cps ≠ []) :
    ∃ c, latestCheckpoint cps = some c ∧ c ∈ cps ∧
      (∀ b ∈ cps, Checkpoint.atLeast c b) ∧
      (ctx.restoreCheckpoint none cps).result = Except.ok c.id ∧
      (ctx.restoreCheckpoint none cps).effects =
        [Effect.restoreFromCheckpoint c.id] := by
  cases cps with
  | nil => exact absurd rfl hne
  | cons c0 t =>
    obtain ⟨h1, h2⟩ := foldl_pickLater_atLeast t c0
    refine ⟨t.foldl pickLater c0, rfl, ?_, ?_, ?_, ?_⟩
    · rcases foldl_pickLater_mem t c0 with h | h
      · rw [h]
        exact List.mem_cons_self c0 t
      · exact List.mem_cons_of_mem c0 h
    · intro b hb
      rcases List.mem_cons.mp hb with rfl | hbt
      · exact h1
      · exact h2 b hbt
    · simp [ContextState.restoreCheckpoint, hlive, latestCheckpoint]
    · simp [ContextState.restoreCheckpoint, hlive, latestCheckpoint]

/-- Witness for C5: the default restore over three concrete checkpoints
picks id 3 (created 7 beats created 5; the id-3 checkpoint beats the id-2
one created at the same time). -/
theorem restoreCheckpoint_defaults_to_latest_witness :
    ∃ c, latestCheckpoint
        [{ id := 1, created := 5 }, { id := 3, created := 7 },
         { id := 2, created := 7 }] = some c ∧
      c ∈ [({ id := 1, created := 5 } : Checkpoint), { id := 3, created := 7 },
           { id := 2, created := 7 }] ∧
      (∀ b ∈ [({ id := 1, created := 5 } : Checkpoint),
              { id := 3, created := 7 }, { id := 2, created := 7 }],
        Checkpoint.atLeast c b) ∧
      (sampleContext.restoreCheckpoint none
        [{ id := 1, created := 5 }, { id := 3, created := 7 },
         { id := 2, created := 7 }]).result = Except.ok c.id ∧
      (sampleContext.restoreCheckpoint none
        [{ id := 1, created := 5 }, { id := 3, created := 7 },
         { id := 2, created := 7 }]).effects =
        [Effect.restoreFromCheckpoint c.id] :=
  restoreCheckpoint_defaults_to_latest sampleContext
    [{ id := 1, created := 5 }, { id := 3, created := 7 },
     { id := 2, created := 7 }] rfl (by decide)

/-- C6: on a live context, a storage failure underlying `revert` or
`save` makes the operation fail with a Storage error while the document
model and the stored metadata snapshot — indeed the whole context state —
are exactly as before the call, and no notification is emitted: no
partial application of new content or metadata. -/
theorem storage_failure_leaves_state_unchanged (ctx : ContextState)
    (hlive : ctx.isDisposed = false) :
    (ctx.revert (Except.error ())).state = ctx ∧
    (ctx.revert (Except.error ())).state.model = ctx.model ∧
    (ctx.revert (Except.error ())).state.contentsModel = ctx.contentsModel ∧
    (ctx.revert (Except.error ())).signals = [] ∧
    (ctx.revert (Except.error ())).result = Except.error DocError.storage ∧
    (ctx.save (Except.error ())).state = ctx ∧
    (ctx.save (Except.error ())).state.model = ctx.model ∧
    (ctx.save (Except.error ())).state.contentsModel = ctx.contentsModel ∧
    (ctx.save (Except.error ())).signals = [] ∧
    (ctx.save (Except.error ())).result = Except.error DocError.storage := by
  simp [ContextState.revert, ContextState.save, hlive]

/-- Witness for C6 at the concrete sample context. -/
theorem storage_failure_leaves_state_unchanged_witness :
    (sampleContext.revert (Except.error ())).state = sampleContext ∧
    (sampleContext.revert (Except.error ())).state.model =
      sampleContext.model ∧
    (sampleContext.revert (Except.error ())).state.contentsModel =
      sampleContext.contentsModel ∧
    (sampleContext.revert (Except.error ())).signals = [] ∧
    (sampleContext.revert (Except.error ())).result =
      Except.error DocError.storage ∧
    (sampleContext.save (Except.error ())).state = sampleContext ∧
    (sampleContext.save (Except.error ())).state.model =
      sampleContext.model ∧
    (sampleContext.save (Except.error ())).state.contentsModel =
      sampleContext.contentsModel ∧
    (sampleContext.save (Except.error ())).signals = [] ∧
    (sampleContext.save (Except.error ())).result =
      Except.error DocError.storage :=
  storage_failure_leaves_state_unchanged sampleContext rfl

/-- C7: on a live context, `changeKernel` with no options tears down any
attached kernel session (a shutdown effect is issued against it) and
leaves the kernel accessor `none`, resolving successfully; `listSessions`
still succeeds against the resulting context; and when options are given
and kernel establishment succeeds, a kernel-changed notification is
emitted and the operation resolves with the new session handle. -/
theorem changeKernel_shutdown_and_start (ctx : ContextState)
    (start : Except Unit KernelHandle) (sessions : List Nat)
    (hlive : ctx.isDisposed = false) :
    ((ctx.changeKernel none start).state.kernel = none ∧
     (ctx.changeKernel none start).result = Except.ok none ∧
     (∀ k, ctx.kernel = some k →
       (ctx.changeKernel none start).effects = [Effect.shutdownKernel k]) ∧
     (ctx.changeKernel none start).state.listSessions sessions =
       Except.ok sessions) ∧
    (∀ opts h, start = Except.ok h →
      (ctx.changeKernel (some opts) start).state.kernel = some h ∧
      (ctx.changeKernel (some opts) start).signals =
        [CtxSignal.kernelChanged (some h)] ∧
      (ctx.changeKernel (some opts) start).result =
        Except.ok (some h)) := by
  refine ⟨⟨?_, ?_, ?_, ?_⟩, ?_⟩
  · simp [ContextState.changeKernel, hlive]
  · simp [ContextState.changeKernel, hlive]
  · intro k hk
    simp [ContextState.changeKernel, hlive, hk]
  · simp [ContextState.changeKernel, ContextState.listSessions, hlive]
  · intro opts h hstart
    subst hstart
    refine ⟨?_, ?_, ?_⟩ <;> simp [ContextState.changeKernel, hlive]

/-- Witness for C7 at the sample context with kernel id 7 attached:
shutdown leaves no kernel, sessions still list, and a successful start
with handle 3 emits the kernel-changed notification. -/
theorem changeKernel_shutdown_and_start_witness :
    ((sampleContextWithKernel.changeKernel none
        (Except.ok { kid := 3 })).state.kernel = none ∧
     (sampleContextWithKernel.changeKernel none
        (Except.ok { kid := 3 })).result = Except.ok none ∧
     (sampleContextWithKernel.changeKernel none
        (Except.ok { kid := 3 })).effects =
       [Effect.shutdownKernel { kid := 7 }] ∧
     (sampleContextWithKernel.changeKernel none
        (Except.ok { kid := 3 })).state.listSessions [11, 12] =
       Except.ok [11, 12]) ∧
    ((sampleContextWithKernel.changeKernel (some "python3")
        (Except.ok { kid := 3 })).state.kernel = some { kid := 3 } ∧
     (sampleContextWithKernel.changeKernel (some "python3")
        (Except.ok { kid := 3 })).signals =
       [CtxSignal.kernelChanged (some { kid := 3 })] ∧
     (sampleContextWithKernel.changeKernel (some "python3")
        (Except.ok { kid := 3 })).result =
       Except.ok (some { kid := 3 })) := by
  have h := changeKernel_shutdown_and_start sampleContextWithKernel
    (Except.ok { kid := 3 }) [11, 12] rfl
  exact ⟨⟨h.1.1, h.1.2.1, h.1.2.2.1 { kid := 7 } rfl, h.1.2.2.2⟩,
         h.2 "python3" { kid := 3 } rfl⟩

/-- C8: disposing a live context disposes the owned model, tears down any
kernel session, releases all sibling registrations, and emits the
disposed notification exactly once; disposal is idempotent (a second call
changes nothing and emits nothing); and every operation invoked on — or
still pending against — the disposed context fails with the disposed
error, never resolving as succeeded. -/
theorem dispose_idempotent_and_blocks_operations (ctx : ContextState)
    (hlive : ctx.isDisposed = false) :
    ctx.dispose.1.dispose = (ctx.dispose.1, [], []) ∧
    ctx.dispose.1.isDisposed = true ∧
    ctx.dispose.1.model.isDisposed = true ∧
    ctx.dispose.1.kernel = none ∧
    ctx.dispose.1.siblings = [] ∧
    ctx.dispose.2.1 = [CtxSignal.disposedSig] ∧
    Effect.disposeModel ∈ ctx.dispose.2.2 ∧
    (∀ k, ctx.kernel = some k →
      Effect.shutdownKernel k ∈ ctx.dispose.2.2) ∧
    (∀ w, (ctx.dispose.1.save w).result = Except.error DocError.disposed) ∧
    (∀ d, (ctx.dispose.1.revert d).result =
      Except.error DocError.disposed) ∧
    (∀ o s, (ctx.dispose.1.changeKernel o s).result =
      Except.error DocError.disposed) ∧
    (∀ cid cps, (ctx.dispose.1.restoreCheckpoint cid cps).result =
      Except.error DocError.disposed) ∧
    (∀ ss, ctx.dispose.1.listSessions ss =
      Except.error DocError.disposed) := by
  have hD : ctx.dispose.1.isDisposed = true := by
    simp [ContextState.dispose, hlive]
  refine ⟨?_, hD, ?_, ?_, ?_, ?_, ?_, ?_, ?_, ?_, ?_, ?_, ?_⟩
  · simp [ContextState.dispose, hlive]
  · simp [ContextState.dispose, hlive]
  · simp [ContextState.dispose, hlive]
  · simp [ContextState.dispose, hlive]
  · simp [ContextState.dispose, hlive]
  · simp [ContextState.dispose, hlive]
  · intro k hk
    simp [ContextState.dispose, hlive, hk]
  · intro w
    simp [ContextState.save, hD]
  · intro d
    simp [ContextState.revert, hD]
  · intro o s
    simp [ContextState.changeKernel, hD]
  · intro cid cps
    simp [ContextState.restoreCheckpoint, hD]
  · intro ss
    simp [ContextState.listSessions, hD]

/-- Witness for C8 at the sample context with a kernel attached: the
shutdown effect targets kernel 7 and a save whose backend write already
succeeded still fails with the disposed error after disposal. -/
theorem dispose_idempotent_and_blocks_operations_witness :
    sampleContextWithKernel.dispose.1.dispose =
      (sampleContextWithKernel.dispose.1, [], []) ∧
    sampleContextWithKernel.dispose.1.isDisposed = true ∧
    sampleContextWithKernel.dispose.1.model.isDisposed = true ∧
    sampleContextWithKernel.dispose.1.kernel = none ∧
    sampleContextWithKernel.dispose.2.1 = [CtxSignal.disposedSig] ∧
    Effect.shutdownKernel { kid := 7 } ∈
      sampleContextWithKernel.dispose.2.2 ∧
    (sampleContextWithKernel.dispose.1.save
      (Except.ok { path := "notebook.ipynb", lastModified := 3,
                   format := "text", contents := "" })).result =
      Except.error DocError.disposed := by
  have h := dispose_idempotent_and_blocks_operations
    sampleContextWithKernel rfl
  exact ⟨h.1, h.2.1, h.2.2.1, h.2.2.2.1, h.2.2.2.2.2.1,
         h.2.2.2.2.2.2.2.1 { kid := 7 } rfl,
         h.2.2.2.2.2.2.2.2.1
           (Except.ok { path := "notebook.ipynb", lastModified := 3,
                        format := "text", contents := "" })⟩

/-- One step never clears `isPopulated`. -/
theorem applyOp_isPopulated_mono (ctx : ContextState) (op : COp)
    (h : ctx.isPopulated = true) : (applyOp ctx op).isPopulated = true := by
  cases op with
  | revert d =>
    rcases d with _ | ⟨content, meta⟩ <;>
      simp [applyOp, ContextState.revert, h] <;> split <;> simp [h]
  | save w =>
    rcases w with _ | meta <;>
      simp [applyOp, ContextState.save, h] <;> split <;> simp [h]
  | changeKernel o s =>
    rcases o with _ | opts
    · simp [applyOp, ContextState.changeKernel, h]
      split <;> simp [h]
    · rcases s with _ | k <;>
        simp [applyOp, ContextState.changeKernel, h] <;>
        split <;> simp [h]
  | restoreCheckpoint cid cps =>
    simp only [applyOp, ContextState.restoreCheckpoint]
    split
    · exact h
    · split <;> exact h
  | dispose =>
    simp only [applyOp, ContextState.dispose]
    split
    · exact h
    · exact h

/-- A non-populating step leaves `isPopulated` unchanged. -/
theorem applyOp_isPopulated_of_not_populating (ctx : ContextState)
    (op : COp) (h : COp.populating op = false) :
    (applyOp ctx op).isPopulated = ctx.isPopulated := by
  cases op with
  | revert d =>
    rcases d with _ | v
    · simp only [applyOp, ContextState.revert]
      split <;> rfl
    · simp [COp.populating] at h
  | save w =>
    rcases w with _ | meta
    · simp only [applyOp, ContextState.save]
      split <;> rfl
    · simp [COp.populating] at h
  | changeKernel o s =>
    rcases o with _ | opts
    · simp only [applyOp, ContextState.changeKernel]
      split <;> rfl
    · rcases s with _ | k <;>
        simp only [applyOp, ContextState.changeKernel] <;>
        split <;> rfl
  | restoreCheckpoint cid cps =>
    simp only [applyOp, ContextState.restoreCheckpoint]
    split
    · rfl
    · split <;> rfl
  | dispose =>
    simp only [applyOp, ContextState.dispose]
    split <;> rfl

/-- A run of operations never clears `isPopulated`. -/
theorem runOps_isPopulated_mono :
    ∀ (ops : List COp) (ctx : ContextState), ctx.isPopulated = true →
      (runOps ctx ops).isPopulated = true := by
  intro ops
  induction ops with
  | nil => intro ctx h; exact h
  | cons op t ih =>
    intro ctx h
    exact ih (applyOp ctx op) (applyOp_isPopulated_mono ctx op h)

/-- A run of non-populating operations leaves `isPopulated` unchanged. -/
theorem runOps_isPopulated_of_not_populating :
    ∀ (ops : List COp) (ctx : ContextState),
      (∀ o ∈ ops, COp.populating o = false) →
      (runOps ctx ops).isPopulated = ctx.isPopulated := by
  intro ops
  induction ops with
  | nil => intro ctx _; rfl
  | cons op t ih =>
    intro ctx h
    have hop := h op (List.mem_cons_self op t)
    have ht : ∀ o ∈ t, COp.populating o = false :=
      fun o ho => h o (List.mem_cons_of_mem op ho)
    calc (runOps (applyOp ctx op) t).isPopulated
        = (applyOp ctx op).isPopulated := ih (applyOp ctx op) ht
      _ = ctx.isPopulated := applyOp_isPopulated_of_not_populating ctx op hop

/-- C9: `isPopulated` is monotone over the life of a context — false from
creation until the first successful population, it becomes true exactly
when a successful load or save is applied to a live context, and it never
reverts to false under any subsequent operation. -/
theorem isPopulated_monotone (ctx : ContextState) (op : COp)
    (ops : List COp) (m : DocumentModel) (p : String) :
    (ctx.isPopulated = true → (applyOp ctx op).isPopulated = true) ∧
    (ctx.isPopulated = true → (runOps ctx ops).isPopulated = true) ∧
    ((applyOp ctx op).isPopulated = true →
      ctx.isPopulated = true ∨ COp.populating op = true) ∧
    (initialContext m p).isPopulated = false ∧
    ((∀ o ∈ ops, COp.populating o = false) →
      (runOps (initialContext m p) ops).isPopulated = false) ∧
    (ctx.isDisposed = false → COp.populating op = true →
      (applyOp ctx op).isPopulated = true) := by
  refine ⟨applyOp_isPopulated_mono ctx op, runOps_isPopulated_mono ops ctx,
    ?_, rfl, ?_, ?_⟩
  · intro hafter
    rcases hpop : COp.populating op with _ | _
    · left
      rw [← applyOp_isPopulated_of_not_populating ctx op hpop]
      exact hafter
    · right
      rfl
  · intro hall
    rw [runOps_isPopulated_of_not_populating ops (initialContext m p) hall]
    rfl
  · intro hlive hpop
    cases op with
    | revert d =>
      rcases d with _ | ⟨content, meta⟩
      · simp [COp.populating] at hpop
      · simp [applyOp, ContextState.revert, hlive]
    | save w =>
      rcases w with _ | meta
      · simp [COp.populating] at hpop
      · simp [applyOp, ContextState.save, hlive]
    | changeKernel o s => simp [COp.populating] at hpop
    | restoreCheckpoint cid cps => simp [COp.populating] at hpop
    | dispose => simp [COp.populating] at hpop

/-- Witness for C9: a fresh live context becomes populated by one
successful revert; a populated context stays populated through a
checkpoint restore, a kernel shutdown and disposal; and a fresh context
stays unpopulated through non-populating steps. -/
theorem isPopulated_monotone_witness :
    ((applyOp sampleContext (COp.revert (Except.ok ("cells",
        { path := "notebook.ipynb", lastModified := 3, format := "text",
          contents := "cells" })))).isPopulated = true) ∧
    ((applyOp { sampleContext with isPopulated := true }
        (COp.changeKernel none (Except.error ()))).isPopulated = true) ∧
    ((runOps { sampleContext with isPopulated := true }
        [COp.restoreCheckpoint none [{ id := 1, created := 5 }],
         COp.dispose]).isPopulated = true) ∧
    (({ sampleContext with isPopulated := true } : ContextState).isPopulated
        = true ∨
      COp.populating (COp.changeKernel none (Except.error ())) = true) ∧
    ((runOps (initialContext sampleModel "notes.txt")
        [COp.changeKernel none (Except.error ()),
         COp.save (Except.error ())]).isPopulated = false) := by
  have h := isPopulated_monotone { sampleContext with isPopulated := true }
    (COp.changeKernel none (Except.error ()))
    [COp.restoreCheckpoint none [{ id := 1, created := 5 }], COp.dispose]
    sampleModel "notes.txt"
  have h2 := isPopulated_monotone (initialContext sampleModel "notes.txt")
    (COp.changeKernel none (Except.error ()))
    [COp.changeKernel none (Except.error ()), COp.save (Except.error ())]
    sampleModel "notes.txt"
  have h3 := isPopulated_monotone sampleContext
    (COp.revert (Except.ok ("cells",
      { path := "notebook.ipynb", lastModified := 3, format := "text",
        contents := "cells" })))
    [] sampleModel "notes.txt"
  exact ⟨h3.2.2.2.2.2 rfl rfl, h.1 rfl, h.2.1 rfl, h.2.2.1 (h.1 rfl),
         h2.2.2.2.2.1 (by decide)⟩

/-- One step preserves the stripped-contents invariant of the
`contentsModel` snapshot. -/
theorem applyOp_contentsStripped (ctx : ContextState) (op : COp)
    (h : contentsStripped ctx) : contentsStripped (applyOp ctx op) := by
  cases op with
  | revert d =>
    rcases d with _ | ⟨content, meta⟩
    · simp only [applyOp, ContextState.revert]
      split <;> exact h
    · simp only [applyOp, ContextState.revert]
      split
      · exact h
      · intro cm hcm
        simp only [stripContents] at hcm
        cases hcm
        rfl
  | save w =>
    rcases w with _ | meta
    · simp only [applyOp, ContextState.save]
      split <;> exact h
    · simp only [applyOp, ContextState.save]
      split
      · exact h
      · intro cm hcm
        simp only [stripContents] at hcm
        cases hcm
        rfl
  | changeKernel o s =>
    rcases o with _ | opts
    · simp only [applyOp, ContextState.changeKernel]
      split
      · exact h
      · intro cm hcm
        exact h cm hcm
    · rcases s with _ | k <;>
        · simp only [applyOp, ContextState.changeKernel]
          split
          · exact h
          · intro cm hcm
            exact h cm hcm
  | restoreCheckpoint cid cps =>
    simp only [applyOp, ContextState.restoreCheckpoint]
    split
    · exact h
    · split <;> exact h
  | dispose =>
    simp only [applyOp, ContextState.dispose]
    split
    · exact h
    · intro cm hcm
      exact h cm hcm

/-- A run of operations preserves the stripped-contents invariant. -/
theorem runOps_contentsStripped :
    ∀ (ops : List COp) (ctx : ContextState), contentsStripped ctx →
      contentsStripped (runOps ctx ops) := by
  intro ops
  induction ops with
  | nil => intro ctx h; exact h
  | cons op t ih =>
    intro ctx h
    exact ih (applyOp ctx op) (applyOp_contentsStripped ctx op h)

/-- C10: whenever a context reachable from creation has a non-null
`contentsModel` (after any sequence of operations, in particular after
every successful save or load), its `contents` field is empty — the
metadata snapshot never carries the file body. -/
theorem contentsModel_contents_always_empty (m : DocumentModel)
    (p : String) (ops : List COp) (cm : ContentsMeta)
    (h : (runOps (initialContext m p) ops).contentsModel = some cm) :
    cm.contents = "" := by
  refine runOps_contentsStripped ops (initialContext m p) ?_ cm h
  intro cm hcm
  exact absurd hcm (by simp [initialContext])

/-- Witness for C10: a concrete load whose backend metadata carries the
file body still stores a snapshot with empty contents. -/
theorem contentsModel_contents_always_empty_witness :
    ({ path := "notebook.ipynb", lastModified := 3, format := "text",
       contents := "" } : ContentsMeta).contents = "" :=
  contentsModel_contents_always_empty sampleModel "notebook.ipynb"
    [COp.revert (Except.ok ("cells",
      { path := "notebook.ipynb", lastModified := 3, format := "text",
        contents := "cells" }))]
    { path := "notebook.ipynb", lastModified := 3, format := "text",
      contents := "" }
    rfl

end DocRegistry
